import Mathlib

/-!
Verification of the clickup-automation repository's platform layer.

This file shallowly embeds the behaviour-deciding parts of the repository
(`adws/clickup.py`, `adws/platform_adapter.py`, `adws/trigger_clickup_webhook.py`,
`adws/adw_plan_build.py`) as executable Lean definitions and proves the
specification's claims about them.  Remote calls are modelled by passing the
remote response in as data and returning the request/effects out as data;
Python exceptions are modelled with `Except`; Python truthiness of optional
strings is modelled explicitly.
-/

namespace ClickUpAutomation

/-! ## String helpers (Python `in`, `or`, truthiness) -/

/-- `startsWithL sub hay`: the character list `sub` is an initial segment of `hay`.
Models the anchored part of Python's substring test. -/
def startsWithL : List Char → List Char → Bool
  | [], _ => true
  | _ :: _, [] => false
  | c :: cs, d :: ds => c == d && startsWithL cs ds

/-- `occursIn sub hay`: `sub` occurs contiguously somewhere in `hay`. -/
def occursIn (sub : List Char) : List Char → Bool
  | [] => startsWithL sub []
  | d :: ds => startsWithL sub (d :: ds) || occursIn sub ds

/-- Python's `sub in hay` substring test on strings. -/
def strContains (hay sub : String) : Bool :=
  occursIn sub.data hay.data

/-- Python truthiness of an optional string: `None` and `""` are falsy. -/
def truthy : Option String → Bool
  | none => false
  | some s => s ≠ ""

/-- Python `a or b` where `a` is an optional string and `b` a string:
yields `a` when `a` is truthy, else `b`. -/
def pyStrOr (a : Option String) (b : String) : String :=
  match a with
  | some s => if s = "" then b else s
  | none => b

/-- Python's `str.lower()` (ASCII case folding, which is all the verified
code relies on). -/
def pyLower (s : String) : String :=
  ⟨s.data.map Char.toLower⟩

/-- Python's whitespace set for `str.strip()`. -/
def pyWhitespace (c : Char) : Bool :=
  c = ' ' || c = '\t' || c = '\n' || c = '\r' || c = Char.ofNat 11 || c = Char.ofNat 12

/-- Python's `str.strip()`: remove leading and trailing whitespace. -/
def pyStrip (s : String) : String :=
  ⟨((s.data.dropWhile pyWhitespace).reverse.dropWhile pyWhitespace).reverse⟩

/-! ## Data model (`adws/data_types.py`)

`ClickUpTag`, `ClickUpCustomField` and `ClickUpTask` keep exactly the fields
that the verified operations read.  A custom field's `value` is
`Optional[Any]` in the source; the verified code only ever applies Python
truthiness and `str(...).lower()` to it, so it is embedded as an
`Option String` (with `none` for `None`, and `""` falsy). -/

structure ClickUpTag where
  name : String
  deriving Repr, DecidableEq

structure ClickUpCustomField where
  name : String
  value : Option String
  deriving Repr, DecidableEq

structure ClickUpTask where
  id : String
  name : String
  description : Option String
  text_content : Option String
  tags : List ClickUpTag
  custom_fields : List ClickUpCustomField
  deriving Repr, DecidableEq

/-! ## `extract_task_type` (`adws/clickup.py`, lines 299-350) -/

/-- The per-string keyword scan shared by the tag loop and the custom-field
loop of `extract_task_type`: `bug`/`fix` → "bug", `feature` → "feature",
`chore` → "chore", `update`/`enhance` → "update", in that order;
`none` when no family matches.  The argument is already lowercased
by the caller, as in the source. -/
def keywordFamily (s : String) : Option String :=
  if strContains s "bug" || strContains s "fix" then some "bug"
  else if strContains s "feature" then some "feature"
  else if strContains s "chore" then some "chore"
  else if strContains s "update" || strContains s "enhance" then some "update"
  else none

/-- The tag loop of `extract_task_type`: first tag whose lowercased name
matches a keyword family decides; non-matching tags are skipped. -/
def scanTags : List ClickUpTag → Option String
  | [] => none
  | t :: rest =>
      match keywordFamily (pyLower t.name) with
      | some ty => some ty
      | none => scanTags rest

/-- The custom-field loop of `extract_task_type`: first field whose name
lowercases to `"type"`, whose value is truthy, and whose stringified
lowercased value matches a keyword family decides; all other fields
(including `"type"` fields with a truthy but non-matching value) are
skipped, as in the source's `for`/`elif` chain. -/
def scanTypeFields : List ClickUpCustomField → Option String
  | [] => none
  | f :: rest =>
      if pyLower f.name = "type" ∧ truthy f.value then
        match keywordFamily (pyLower (pyStrOr f.value "")) with
        | some ty => some ty
        | none => scanTypeFields rest
      else scanTypeFields rest

/-- The fallback text scan of `extract_task_type` (lines 342-350): the
keyword lists are taken verbatim from the source. -/
def textFallback (text : String) : String :=
  if ["fix", "bug", "error", "broken"].any (fun k => strContains text k) then "bug"
  else if ["chore", "refactor", "cleanup", "maintenance"].any (fun k => strContains text k) then
    "chore"
  else if ["update", "enhance", "improve", "optimize"].any (fun k => strContains text k) then
    "update"
  else "feature"

/-- The string `f"{task.name} {task.description or task.text_content or ''}".lower()`
scanned by the fallback step. -/
def taskText (task : ClickUpTask) : String :=
  pyLower (task.name ++ " " ++ pyStrOr task.description (pyStrOr task.text_content ""))

/-- `extract_task_type` (`adws/clickup.py`): tags, then the `"Type"` custom
field, then the name/description text, defaulting to `"feature"`. -/
def extract_task_type (task : ClickUpTask) : String :=
  match scanTags task.tags with
  | some ty => ty
  | none =>
      match scanTypeFields task.custom_fields with
      | some ty => ty
      | none => textFallback (taskText task)

/-- The fallback text scan as the specification's words describe it for
claim C5 ("the same keyword families" as steps 1 and 2): families
bug/fix, feature, chore, update/enhance, with the hard default `"feature"`.
This definition follows the spec, not the source, and exists only to be
compared against `textFallback`. -/
def textFallbackSpecFamilies (text : String) : String :=
  if strContains text "bug" || strContains text "fix" then "bug"
  else if strContains text "feature" then "feature"
  else if strContains text "chore" then "chore"
  else if strContains text "update" || strContains text "enhance" then "update"
  else "feature"

/-! ## `get_task`'s direct HTTP fallback (`adws/clickup.py`, lines 57-110)

The HTTP exchange enters as data: `status_code`/`body_text` are the remote
response, and `parsed` is the outcome of `ClickUpTask(**response.json())` on a
200 response (with the raised message when parsing or validation fails).
The model covers the path with `CLICKUP_API_KEY` configured and the MCP
module unavailable, i.e. the direct `requests.get` fallback. -/

/-- Outcome of `clickup.get_task`: the task, a `TaskNotFoundError`, or a
`ClickUpAPIError`, each with its message. -/
inductive GetTaskOutcome
  | ok (task : ClickUpTask)
  | taskNotFound (msg : String)
  | clickUpAPIError (msg : String)
  deriving Repr, DecidableEq

/-- The body of `get_task`'s `try` block on the direct HTTP path: 404 raises
`TaskNotFoundError("Task {id} not found")`, any other non-200 raises
`ClickUpAPIError("ClickUp API error: {code} - {text}")`, a 200 yields the
parse outcome.  Only the message matters downstream, because the outer
handler catches every exception uniformly. -/
def get_task_attempt (task_id : String) (status_code : Nat) (body_text : String)
    (parsed : Except String ClickUpTask) : Except String ClickUpTask :=
  if status_code = 404 then
    .error ("Task " ++ task_id ++ " not found")
  else if status_code ≠ 200 then
    .error ("ClickUp API error: " ++ toString status_code ++ " - " ++ body_text)
  else parsed

/-- `get_task` with its outer `except Exception as e` handler (lines 106-110):
whatever was raised, it is re-raised as `TaskNotFoundError` when
`"not found" in str(e).lower()`, else as
`ClickUpAPIError("Failed to fetch task {id}: ...")`. -/
def get_task_direct (task_id : String) (status_code : Nat) (body_text : String)
    (parsed : Except String ClickUpTask) : GetTaskOutcome :=
  match get_task_attempt task_id status_code body_text parsed with
  | .ok t => .ok t
  | .error msg =>
      if strContains (pyLower msg) "not found" then
        .taskNotFound ("Task " ++ task_id ++ " not found")
      else
        .clickUpAPIError ("Failed to fetch task " ++ task_id ++ ": " ++ msg)

/-! ## Platform adapters (`adws/platform_adapter.py`)

Adapter methods return their observable effects as data; an `Except` layer
records whether the call raises.  The remote mutation of a ClickUp status
update is the PUT request it sends, returned as data. -/

/-- An observable side effect of an adapter operation. -/
inductive Effect
  | consoleLog (msg : String)
  | githubMarkInProgress (issue_id : String)
  deriving Repr, DecidableEq

/-- Whether the effect reaches the network: `consoleLog` is local output,
`githubMarkInProgress` is a remote mutation. -/
def Effect.isNetwork : Effect → Bool
  | .consoleLog _ => false
  | .githubMarkInProgress _ => true

/-- Modelled from the spec: `github.mark_issue_in_progress` lives in
`github.py`, which is not under `src/`; §4.2 describes it as a label-based
status change marking the issue in progress.  Its remote mutation is recorded
as the opaque effect `Effect.githubMarkInProgress issue_id`; note that it
receives no status argument. -/
def mark_issue_in_progress (issue_id : String) : Except String (List Effect) :=
  .ok [Effect.githubMarkInProgress issue_id]

/-- `GitHubAdapter.update_status` (lines 76-80): delegates to
`github.mark_issue_in_progress(item_id)`; the `status` parameter does not
occur in the body. -/
def GitHubAdapter.update_status (item_id status : String) : Except String (List Effect) :=
  mark_issue_in_progress item_id

/-- `GitHubAdapter.set_custom_field` (lines 82-84): prints a notice and
returns `None`; no exception, no network call. -/
def GitHubAdapter.set_custom_field (item_id field_name value : String) :
    Except String (List Effect) :=
  .ok [Effect.consoleLog
    ("GitHub: Cannot set custom field '" ++ field_name ++ "' (not supported)")]

/-- The PUT request `clickup.update_task_status`'s direct HTTP fallback
sends (lines 183-198). -/
structure HttpPutRequest where
  url : String
  status_payload : String
  deriving Repr, DecidableEq

/-- The direct-HTTP fallback of `clickup.update_task_status`:
`PUT https://api.clickup.com/api/v2/task/{task_id}` with payload
`{"status": status}`. -/
def update_task_status_request (task_id status : String) : HttpPutRequest :=
  { url := "https://api.clickup.com/api/v2/task/" ++ task_id
    status_payload := status }

/-- `ClickUpAdapter.update_status` (lines 124-128) delegates to
`clickup.update_task_status(item_id, status)`, whose remote mutation is the
PUT request above. -/
def ClickUpAdapter.update_status_request (item_id status : String) : HttpPutRequest :=
  update_task_status_request item_id status

/-- The adapter value `create_adapter` constructs. -/
inductive Adapter
  | github (repo_path : String)
  | clickup (list_id : Option String)
  deriving Repr, DecidableEq

/-- `GitHubAdapter.get_platform_name` / `ClickUpAdapter.get_platform_name`
(lines 86-87 and 141-142). -/
def Adapter.get_platform_name : Adapter → String
  | .github _ => "github"
  | .clickup _ => "clickup"

/-- How `create_adapter` fails: the explicit `raise ValueError` for an
unsupported platform, or an exception escaping the GitHub repo-path
derivation. -/
inductive FactoryError
  | valueError (msg : String)
  | upstreamError (msg : String)
  deriving Repr, DecidableEq

/-- `create_adapter` (lines 145-172).  `repo_path` and `list_id` are the
optional keyword arguments; `derived_repo` stands for the outcome of
`extract_repo_path(get_repo_url())` (functions of `github.py`, which is not
under `src/`), evaluated only when the GitHub branch runs without a truthy
`repo_path`. -/
def create_adapter (platform : String) (repo_path : Option String)
    (list_id : Option String) (derived_repo : Except String String) :
    Except FactoryError Adapter :=
  if platform = "github" then
    if truthy repo_path then .ok (.github (pyStrOr repo_path ""))
    else
      match derived_repo with
      | .ok r => .ok (.github r)
      | .error e => .error (.upstreamError e)
  else if platform = "clickup" then
    .ok (.clickup list_id)
  else
    .error (.valueError ("Unsupported platform: " ++ platform))

/-! ## Orchestrator classification stage (`adws/adw_plan_build.py`)

The classifier agent's response enters as data; the model covers `main` from
the `classify_work_item` call (line 470) through `check_error` (line 472) to
the entry of Stage 2 (`git_branch`, line 484). -/

/-- An agent response (`data_types.AgentPromptResponse`, the fields the
orchestrator inspects). -/
structure AgentPromptResponse where
  output : String
  success : Bool
  deriving Repr, DecidableEq

/-- `classify_work_item` (lines 144-181) reduced to its decision on the
classifier response: `(command?, error_message?)`.  A failed response
returns its raw output as the error; output `"0"` (after `strip()`) and any
command outside `{"/chore", "/bug", "/feature"}` yield explanatory errors. -/
def classify_work_item (resp : AgentPromptResponse) : Option String × Option String :=
  if resp.success = false then (none, some resp.output)
  else
    let item_command := pyStrip resp.output
    if item_command = "0" then (none, some ("No command selected: " ++ resp.output))
    else if item_command ∉ ["/chore", "/bug", "/feature"] then
      (none, some ("Invalid command selected: " ++ resp.output))
    else (some item_command, none)

/-- How the classification segment of a run ends. -/
inductive SegmentOutcome
  | exited (code : Nat)
  | crashed
  | continued (command : String)
  deriving Repr, DecidableEq

/-- Observable summary of the classification segment of `main`. -/
structure ClassifySegment where
  errorCommentAttempts : Nat
  reachedBranchStage : Bool
  outcome : SegmentOutcome
  deriving Repr, DecidableEq

/-- Stage 1 of `main` and the following `check_error` call (lines 360-398 and
460-486).  `check_error` tests `if error:` — Python truthiness — so `None`
and `""` both fall through.  On a truthy error it logs, attempts exactly one
explanatory comment (`post_ok` says whether that post succeeds; its failure
is caught and logged) and calls `sys.exit(1)` either way.  When it falls
through with `item_command = None`, Stage 2's `git_branch` evaluates
`item_class.replace("/", "")` on `None` and the run dies with an uncaught
`AttributeError` before any branch is created. -/
def main_classification_stage (resp : AgentPromptResponse) (post_ok : Bool) :
    ClassifySegment :=
  let r := classify_work_item resp
  if truthy r.2 then
    { errorCommentAttempts := 1, reachedBranchStage := false, outcome := .exited 1 }
  else
    match r.1 with
    | some cmd =>
        { errorCommentAttempts := 0, reachedBranchStage := true, outcome := .continued cmd }
    | none =>
        { errorCommentAttempts := 0, reachedBranchStage := true, outcome := .crashed }

/-! ## `POST /clickup-webhook` (`adws/trigger_clickup_webhook.py`, lines 65-202)

The handler's collaborators enter as data: the configured secret and list
filter, the `X-Signature` header, the parsed JSON body (or its parse
failure), the id `make_adw_id()` generates, and whether `subprocess.Popen`
succeeds (when it raises, the outer `except` produces the internal-error
body).  Every branch returns the FastAPI-default HTTP 200; the returned
record projects the response body onto the fields the claims mention, plus
the `(task_id, adw_id)` arguments of the background orchestrator launch, if
one happened. -/

/-- The payload fields the handler reads.  `history_items` holds each history
item's `task_id` entry; `comment_text` is `payload["comment"]["comment_text"]`
when both keys are present. -/
structure CUPayload where
  event : Option String
  task_id : Option String
  history_items : Option (List (Option String))
  list_id : Option String
  comment_text : Option String
  deriving Repr, DecidableEq

/-- `verify_clickup_signature` (lines 46-62): with no truthy secret configured,
verification is skipped; otherwise plain equality with the header value. -/
def verify_clickup_signature (secret signature : Option String) : Bool :=
  if truthy secret = false then true
  else signature = secret

/-- task_id extraction with the `history_items` fallback (lines 105-113):
the fallback runs when `task_id` is falsy and the key is present, and takes
the first history item's `task_id` when the list is non-empty. -/
def resolve_task_id (p : CUPayload) : Option String :=
  if truthy p.task_id then p.task_id
  else
    match p.history_items with
    | some (h :: _) => h
    | _ => p.task_id

/-- The webhook response, projected onto the claim-relevant fields. -/
structure WebhookResponse where
  http_status : Nat
  status : String
  reason : Option String
  launched : Option (String × String)
  deriving Repr, DecidableEq

/-- The `should_trigger`/`trigger_reason` computation of the handler
(lines 121-145): a `taskCreated` event triggers unless a truthy configured
list filter disagrees with the payload's `list_id`; a `taskCommentPosted`
event triggers exactly when the stripped, lowercased comment text is
`"adw"`; every other event does not trigger. -/
def trigger_decision (list_filter : Option String) (event : String)
    (p : CUPayload) : Bool × String :=
  if event = "taskCreated" then
    if truthy list_filter then
      if p.list_id = list_filter then (true, "New task created")
      else (false, "Task not in configured list " ++ pyStrOr list_filter "")
    else (true, "New task created")
  else if event = "taskCommentPosted" then
    if pyLower (pyStrip (pyStrOr p.comment_text "")) = "adw" then
      (true, "Comment with 'adw' command")
    else (false, "")
  else (false, "")

/-- The `POST /clickup-webhook` handler. -/
def clickup_webhook (secret list_filter signature : Option String)
    (body : Except String CUPayload) (adw_id : String) (popen_ok : Bool) :
    WebhookResponse :=
  if verify_clickup_signature secret signature = false then
    { http_status := 200, status := "error", reason := none, launched := none }
  else
    match body with
    | .error _ => { http_status := 200, status := "error", reason := none, launched := none }
    | .ok p =>
        if p.event = some "ping" then
          { http_status := 200, status := "ok", reason := none, launched := none }
        else
          if truthy (resolve_task_id p) = false then
            { http_status := 200, status := "error", reason := none, launched := none }
          else
            if (trigger_decision list_filter (pyStrOr p.event "") p).1 then
              if popen_ok then
                { http_status := 200, status := "accepted"
                  reason := some (trigger_decision list_filter (pyStrOr p.event "") p).2
                  launched := some (pyStrOr (resolve_task_id p) "", adw_id) }
              else
                { http_status := 200, status := "error", reason := none, launched := none }
            else
              { http_status := 200, status := "ignored"
                reason := some
                  (if (trigger_decision list_filter (pyStrOr p.event "") p).2 = "" then
                    "Not a triggering event (event=" ++ pyStrOr p.event "" ++ ")"
                  else (trigger_decision list_filter (pyStrOr p.event "") p).2)
                launched := none }

/-! ## Helper lemmas -/

/-- A list starts with itself followed by anything. -/
theorem startsWithL_append_self (sub rest : List Char) :
    startsWithL sub (sub ++ rest) = true := by
  induction sub with
  | nil => rfl
  | cons c cs ih => simp [startsWithL, ih]

/-- Occurrence is preserved by prepending. -/
theorem occursIn_append_left (sub tail pre : List Char)
    (h : occursIn sub tail = true) : occursIn sub (pre ++ tail) = true := by
  induction pre with
  | nil => simpa using h
  | cons d ds ih =>
      simp only [List.cons_append, occursIn, Bool.or_eq_true]
      exact Or.inr ih

/-- Any string of the form `pre ++ " not found"`, lowercased, contains
`"not found"`. -/
theorem strContains_pyLower_not_found (pre : String) :
    strContains (pyLower (pre ++ " not found")) "not found" = true := by
  show occursIn "not found".data ((pre ++ " not found").data.map Char.toLower) = true
  rw [String.data_append, List.map_append]
  exact occursIn_append_left _ _ _ (by decide)

/-! ## Claim theorems -/

/-- C1: `extract_task_type` follows the ordered precedence policy with a hard
default: a matching tag decides regardless of custom fields and text; with no
matching tag, a matching truthy `"Type"` custom field decides regardless of
text; otherwise the concatenated name and description/text_content is
scanned, and when nothing in it matches the scan's keywords the result is
`"feature"`; and the four concrete scenarios of the claim behave as stated. -/
theorem extract_task_type_precedence :
    (∀ (i n : String) (d tc : Option String) (tags : List ClickUpTag)
        (cfs : List ClickUpCustomField) (ty : String),
        scanTags tags = some ty →
        extract_task_type ⟨i, n, d, tc, tags, cfs⟩ = ty) ∧
    (∀ (i n : String) (d tc : Option String) (tags : List ClickUpTag)
        (cfs : List ClickUpCustomField) (ty : String),
        scanTags tags = none → scanTypeFields cfs = some ty →
        extract_task_type ⟨i, n, d, tc, tags, cfs⟩ = ty) ∧
    (∀ t : ClickUpTask,
        scanTags t.tags = none → scanTypeFields t.custom_fields = none →
        extract_task_type t = textFallback (taskText t)) ∧
    (∀ s : String,
        (["fix", "bug", "error", "broken", "chore", "refactor", "cleanup",
          "maintenance", "update", "enhance", "improve", "optimize"].all
          (fun k => !strContains s k)) = true →
        textFallback s = "feature") ∧
    extract_task_type ⟨"1", "Do it", some "add new feature", none, [⟨"bug-fix"⟩], []⟩
      = "bug" ∧
    extract_task_type
        ⟨"2", "Do it", some "fix the crashing bug", none, [], [⟨"Type", some "Feature"⟩]⟩
      = "feature" ∧
    extract_task_type ⟨"3", "Task", some "fix broken thing", none, [], []⟩ = "bug" ∧
    extract_task_type ⟨"4", "Write docs", some "please", none, [], []⟩ = "feature" := by
  refine ⟨?_, ?_, ?_, ?_, by decide, by decide, by decide, by decide⟩
  · intro i n d tc tags cfs ty h
    simp [extract_task_type, h]
  · intro i n d tc tags cfs ty h1 h2
    simp [extract_task_type, h1, h2]
  · intro t h1 h2
    simp [extract_task_type, h1, h2]
  · intro s h
    simp only [List.all_cons, List.all_nil, Bool.and_eq_true, Bool.not_eq_true'] at h
    obtain ⟨h1, h2, h3, h4, h5, h6, h7, h8, h9, h10, h11, h12, -⟩ := h
    simp [textFallback, h1, h2, h3, h4, h5, h6, h7, h8, h9, h10, h11, h12]

/-- Witness for C1 at a concrete task: the tag `"Chore-ish"` matches the
chore family and wins over a bug-valued `"Type"` field and a feature-flavoured
description. -/
theorem extract_task_type_precedence_witness :
    extract_task_type
        ⟨"7", "Do it", some "add new feature", none, [⟨"Chore-ish"⟩],
          [⟨"Type", some "Bug"⟩]⟩ = "chore" :=
  extract_task_type_precedence.1 "7" "Do it" (some "add new feature") none
    [⟨"Chore-ish"⟩] [⟨"Type", some "Bug"⟩] "chore" (by decide)

/-- C5 counterexample: the text scan is not restricted to the four keyword
families.  `"broken thing"` contains none of bug/fix/feature/chore/update/
enhance, so under the claimed families step 3 would default to `"feature"`,
but the code classifies it as `"bug"` via the extra keyword `"broken"`. -/
theorem text_fallback_families_cex :
    extract_task_type ⟨"5", "broken thing", none, none, [], []⟩ = "bug" ∧
    textFallbackSpecFamilies (taskText ⟨"5", "broken thing", none, none, [], []⟩)
      = "feature" ∧
    scanTags ([] : List ClickUpTag) = none ∧
    scanTypeFields ([] : List ClickUpCustomField) = none := by decide

/-- C5 amended: step 3 scans the concatenated text with supersets of the
families — bug also on error/broken, chore also on refactor/cleanup/
maintenance, update also on improve/optimize — in the order bug, chore,
update, with no feature keyword check: `"feature"` arises only as the
default when none of those twelve keywords occurs. -/
theorem text_fallback_extended_families :
    (∀ t : ClickUpTask,
        scanTags t.tags = none → scanTypeFields t.custom_fields = none →
        extract_task_type t = textFallback (taskText t)) ∧
    (∀ s : String,
        (["fix", "bug", "error", "broken", "chore", "refactor", "cleanup",
          "maintenance", "update", "enhance", "improve", "optimize"].all
          (fun k => !strContains s k)) = true →
        textFallback s = "feature") ∧
    extract_task_type ⟨"6", "Ship the new feature", none, none, [], []⟩ = "feature" ∧
    textFallback "improve this feature" = "update" ∧
    textFallback "broken" = "bug" ∧
    textFallback "refactor the feature" = "chore" := by
  refine ⟨?_, ?_, by decide, by decide, by decide, by decide⟩
  · intro t h1 h2
    simp [extract_task_type, h1, h2]
  · intro s h
    simp only [List.all_cons, List.all_nil, Bool.and_eq_true, Bool.not_eq_true'] at h
    obtain ⟨h1, h2, h3, h4, h5, h6, h7, h8, h9, h10, h11, h12, -⟩ := h
    simp [textFallback, h1, h2, h3, h4, h5, h6, h7, h8, h9, h10, h11, h12]

/-- Witness for the amended C5 at a concrete task with no tags and no
custom fields: the result is the text scan of its concatenated text. -/
theorem text_fallback_extended_families_witness :
    extract_task_type ⟨"8", "Polish UI", some "make it shine", none, [], []⟩ =
      textFallback (taskText ⟨"8", "Polish UI", some "make it shine", none, [], []⟩) :=
  text_fallback_extended_families.1
    ⟨"8", "Polish UI", some "make it shine", none, [], []⟩ (by decide) (by decide)

/-- C2 counterexample: a non-404, non-2xx response does not always raise
`ClickUpAPIError` — the outer handler re-raises as `TaskNotFoundError`
whenever the response body makes the message contain `"not found"`
case-insensitively.  An HTTP 500 whose body is `"resource Not Found"` is
surfaced as `TaskNotFoundError`. -/
theorem get_task_not_found_body_cex :
    get_task_direct "abc" 500 "resource Not Found" (Except.error "") =
      GetTaskOutcome.taskNotFound "Task abc not found" ∧
    (500 : Nat) ≠ 404 := by decide

/-- C2 amended: in the direct HTTP path of `get_task`, a 404 raises
`TaskNotFoundError`; any other non-2xx raises `ClickUpAPIError` with the
status code and body in its message, unless the resulting message contains
`"not found"` case-insensitively, in which case it too is surfaced as
`TaskNotFoundError`. -/
theorem get_task_direct_error_mapping :
    ∀ (task_id body_text : String) (status_code : Nat)
      (parsed : Except String ClickUpTask),
      (status_code = 404 →
        get_task_direct task_id status_code body_text parsed =
          GetTaskOutcome.taskNotFound ("Task " ++ task_id ++ " not found")) ∧
      (status_code ≠ 404 → status_code ≠ 200 →
        strContains
            (pyLower ("ClickUp API error: " ++ toString status_code ++ " - " ++ body_text))
            "not found" = false →
        get_task_direct task_id status_code body_text parsed =
          GetTaskOutcome.clickUpAPIError
            ("Failed to fetch task " ++ task_id ++ ": " ++
              ("ClickUp API error: " ++ toString status_code ++ " - " ++ body_text))) ∧
      (status_code ≠ 404 → status_code ≠ 200 →
        strContains
            (pyLower ("ClickUp API error: " ++ toString status_code ++ " - " ++ body_text))
            "not found" = true →
        get_task_direct task_id status_code body_text parsed =
          GetTaskOutcome.taskNotFound ("Task " ++ task_id ++ " not found")) := by
  intro task_id body_text status_code parsed
  refine ⟨?_, ?_, ?_⟩
  · intro h404
    simp [get_task_direct, get_task_attempt, h404, strContains_pyLower_not_found]
  · intro h404 h200 hnf
    simp [get_task_direct, get_task_attempt, h404, h200, hnf]
  · intro h404 h200 hnf
    simp [get_task_direct, get_task_attempt, h404, h200, hnf]

/-- Witness for the amended C2: an HTTP 500 with body `"boom"` yields a
`ClickUpAPIError` carrying the status code and body, and an HTTP 404 yields
`TaskNotFoundError`. -/
theorem get_task_direct_error_mapping_witness :
    get_task_direct "t1" 500 "boom" (Except.error "oops") =
      GetTaskOutcome.clickUpAPIError
        ("Failed to fetch task t1: " ++ ("ClickUp API error: " ++ toString (500 : Nat) ++ " - " ++ "boom")) ∧
    get_task_direct "t2" 404 "" (Except.error "oops") =
      GetTaskOutcome.taskNotFound ("Task " ++ "t2" ++ " not found") :=
  ⟨(get_task_direct_error_mapping "t1" "boom" 500 (Except.error "oops")).2.1
      (by decide) (by decide) (by decide),
    (get_task_direct_error_mapping "t2" "" 404 (Except.error "oops")).1 rfl⟩

/-- C3: `GitHubAdapter.set_custom_field` is a no-op for every item id, field
name and value: it returns normally (no exception) and its only effect is a
console message — no network effect. -/
theorem github_set_custom_field_noop :
    ∀ item_id field_name value : String,
      ∃ effs : List Effect,
        GitHubAdapter.set_custom_field item_id field_name value = Except.ok effs ∧
        effs.all (fun e => !e.isNetwork) = true :=
  fun _ _ _ => ⟨_, rfl, rfl⟩

/-- C4: `check_error` tests the error string's Python truthiness, so the
classification failure `success=False, output=""` slips through: no
explanatory comment is attempted and the run proceeds into the branch stage,
where `git_branch` crashes evaluating `None.replace` — contradicting the
documented stop-comment-exit policy, which every non-empty-message failure
does follow (regardless of whether the comment post succeeds). -/
theorem classification_empty_error_bypass :
    classify_work_item ⟨"", false⟩ = (none, some "") ∧
    main_classification_stage ⟨"", false⟩ true =
      ⟨0, true, SegmentOutcome.crashed⟩ ∧
    main_classification_stage ⟨"", false⟩ false =
      ⟨0, true, SegmentOutcome.crashed⟩ ∧
    main_classification_stage ⟨"agent blew up", false⟩ true =
      ⟨1, false, SegmentOutcome.exited 1⟩ ∧
    main_classification_stage ⟨"agent blew up", false⟩ false =
      ⟨1, false, SegmentOutcome.exited 1⟩ ∧
    main_classification_stage ⟨"0", true⟩ true =
      ⟨1, false, SegmentOutcome.exited 1⟩ ∧
    main_classification_stage ⟨"/deploy", true⟩ true =
      ⟨1, false, SegmentOutcome.exited 1⟩ ∧
    main_classification_stage ⟨" /bug ", true⟩ true =
      ⟨0, true, SegmentOutcome.continued "/bug"⟩ := by decide

/-- C6 counterexample: on the GitHub adapter the caller-provided status does
not determine the remote mutation — two different statuses produce the same
fixed mark-in-progress mutation, which carries no status at all. -/
theorem github_update_status_ignored_cex :
    GitHubAdapter.update_status "42" "Ready for Review (DEV)" =
      GitHubAdapter.update_status "42" "in progress" ∧
    GitHubAdapter.update_status "42" "Ready for Review (DEV)" =
      Except.ok [Effect.githubMarkInProgress "42"] :=
  ⟨rfl, rfl⟩

/-- C6 amended: `ClickUpAdapter.update_status` sends the caller-provided
status as the PUT payload to the task endpoint, while
`GitHubAdapter.update_status` ignores its status argument and always performs
the fixed mark-in-progress mutation. -/
theorem update_status_by_adapter :
    (∀ item_id status status' : String,
        GitHubAdapter.update_status item_id status =
          GitHubAdapter.update_status item_id status' ∧
        GitHubAdapter.update_status item_id status =
          Except.ok [Effect.githubMarkInProgress item_id]) ∧
    (∀ item_id status : String,
        (ClickUpAdapter.update_status_request item_id status).status_payload = status ∧
        (ClickUpAdapter.update_status_request item_id status).url =
          "https://api.clickup.com/api/v2/task/" ++ item_id) :=
  ⟨fun _ _ _ => ⟨rfl, rfl⟩, fun _ _ => ⟨rfl, rfl⟩⟩

/-- A string with a non-empty left part stays non-empty under append. -/
theorem str_append_ne_empty (a b : String) (h : a.data ≠ []) : a ++ b ≠ "" := by
  intro hc
  have hd : (a ++ b).data = [] := by rw [hc]
  rw [String.data_append] at hd
  rcases List.append_eq_nil.mp hd with ⟨h1, -⟩
  exact h h1

/-- C7: every `POST /clickup-webhook` outcome — invalid signature, malformed
JSON, ping, unrecognized event, missing task id, non-triggering comment,
accepted launch, or an exception from the background launch — carries HTTP
status 200, with the outcome recorded only in the body's `status` field,
which is always one of `ok`, `accepted`, `ignored`, `error`. -/
theorem clickup_webhook_always_http_200 :
    ∀ (secret list_filter signature : Option String)
      (body : Except String CUPayload) (adw_id : String) (popen_ok : Bool),
      (clickup_webhook secret list_filter signature body adw_id popen_ok).http_status
        = 200 ∧
      (clickup_webhook secret list_filter signature body adw_id popen_ok).status
        ∈ (["ok", "accepted", "ignored", "error"] : List String) := by
  intro secret lf sig body adw popen
  unfold clickup_webhook
  repeat' split
  all_goals exact ⟨rfl, by dsimp only; decide⟩

/-- C8: a `taskCreated` event whose payload `list_id` differs from a
configured (truthy) `CLICKUP_LIST_ID` is answered with status `"ignored"`
and a reason naming the configured list, and no background orchestrator is
launched. -/
theorem webhook_list_mismatch_ignored :
    ∀ (secret signature : Option String) (lf : String) (p : CUPayload)
      (adw_id : String) (popen_ok : Bool),
      verify_clickup_signature secret signature = true →
      p.event = some "taskCreated" →
      lf ≠ "" →
      truthy (resolve_task_id p) = true →
      p.list_id ≠ some lf →
      clickup_webhook secret (some lf) signature (Except.ok p) adw_id popen_ok =
        { http_status := 200, status := "ignored"
          reason := some ("Task not in configured list " ++ lf), launched := none } := by
  intro secret sig lf p adw popen hver hev hlf htid hne
  have hver' : ¬ verify_clickup_signature secret sig = false := by simp [hver]
  have hping : ¬ p.event = some "ping" := by simp [hev]
  have hevs : pyStrOr p.event "" = "taskCreated" := by rw [hev]; decide
  have htrig : trigger_decision (some lf) "taskCreated" p =
      (false, "Task not in configured list " ++ lf) := by
    simp [trigger_decision, truthy, hlf, hne, pyStrOr]
  have hre : ¬ ("Task not in configured list " ++ lf = "") :=
    str_append_ne_empty _ _ (by decide)
  simp [clickup_webhook, hver', hping, htid, hevs, htrig, hre]

/-- Witness for C8: with `CLICKUP_LIST_ID = "L1"` and a `taskCreated` payload
in list `"other"`, the response is `ignored` with the mismatch reason and no
launch. -/
theorem webhook_list_mismatch_ignored_witness :
    clickup_webhook none (some "L1") none
        (Except.ok ⟨some "taskCreated", some "t9", none, some "other", none⟩)
        "a1" true =
      { http_status := 200, status := "ignored"
        reason := some ("Task not in configured list " ++ "L1"), launched := none } :=
  webhook_list_mismatch_ignored none none "L1"
    ⟨some "taskCreated", some "t9", none, some "other", none⟩ "a1" true
    (by decide) rfl (by decide) (by decide) (by decide)

/-- C9 counterexample: the trigger test is not "comment text exactly
`\"adw\"`" — the handler strips and lowercases first, so the comment
`"ADW"`, which is not exactly `"adw"`, still launches the background
orchestrator with an `accepted` response. -/
theorem webhook_comment_adw_cex :
    clickup_webhook none none none
        (Except.ok ⟨some "taskCommentPosted", some "t1", none, none, some "ADW"⟩)
        "id1" true =
      { http_status := 200, status := "accepted"
        reason := some "Comment with 'adw' command"
        launched := some ("t1", "id1") } ∧
    "ADW" ≠ "adw" := by decide

/-- C9 amended: for a `taskCommentPosted` event carrying a task id, the
handler generates and threads through a fresh correlation id and launches
the detached orchestrator if and only if the comment text equals `"adw"`
after stripping whitespace and lowercasing; any other text yields `ignored`
with no launch. -/
theorem webhook_comment_trigger_normalized :
    ∀ (secret list_filter signature : Option String) (p : CUPayload)
      (adw_id : String) (popen_ok : Bool),
      verify_clickup_signature secret signature = true →
      p.event = some "taskCommentPosted" →
      truthy (resolve_task_id p) = true →
      (pyLower (pyStrip (pyStrOr p.comment_text "")) = "adw" →
        clickup_webhook secret list_filter signature (Except.ok p) adw_id true =
          { http_status := 200, status := "accepted"
            reason := some "Comment with 'adw' command"
            launched := some (pyStrOr (resolve_task_id p) "", adw_id) }) ∧
      (¬ pyLower (pyStrip (pyStrOr p.comment_text "")) = "adw" →
        clickup_webhook secret list_filter signature (Except.ok p) adw_id popen_ok =
          { http_status := 200, status := "ignored"
            reason := some "Not a triggering event (event=taskCommentPosted)"
            launched := none }) := by
  intro secret lf sig p adw popen hver hev htid
  have hver' : ¬ verify_clickup_signature secret sig = false := by simp [hver]
  have hping : ¬ p.event = some "ping" := by simp [hev]
  have hevs : pyStrOr p.event "" = "taskCommentPosted" := by rw [hev]; decide
  constructor
  · intro hadw
    have htrig : trigger_decision lf "taskCommentPosted" p =
        (true, "Comment with 'adw' command") := by
      simp [trigger_decision, hadw]
    simp [clickup_webhook, hver', hping, htid, hevs, htrig]
  · intro hnadw
    have htrig : trigger_decision lf "taskCommentPosted" p = (false, "") := by
      simp [trigger_decision, hnadw]
    simp [clickup_webhook, hver', hping, htid, hevs, htrig]

/-- Witness for the amended C9: the comment `" Adw "` normalizes to `"adw"`
and triggers an accepted launch carrying the generated correlation id. -/
theorem webhook_comment_trigger_normalized_witness :
    clickup_webhook none none none
        (Except.ok ⟨some "taskCommentPosted", some "t7", none, none, some " Adw "⟩)
        "id9" true =
      { http_status := 200, status := "accepted"
        reason := some "Comment with 'adw' command"
        launched := some (pyStrOr (resolve_task_id
            ⟨some "taskCommentPosted", some "t7", none, none, some " Adw "⟩) "",
          "id9") } :=
  (webhook_comment_trigger_normalized none none none
      ⟨some "taskCommentPosted", some "t7", none, none, some " Adw "⟩ "id9" true
      (by decide) rfl (by decide)).1 (by decide)

/-- C10: `create_adapter` raises `ValueError` for every platform tag other
than `"github"` and `"clickup"`, and for those two tags builds an adapter
whose `get_platform_name` equals the tag it was built from. -/
theorem create_adapter_factory :
    (∀ (platform : String) (repo_path list_id : Option String)
        (derived_repo : Except String String),
        platform ≠ "github" → platform ≠ "clickup" →
        create_adapter platform repo_path list_id derived_repo =
          Except.error (FactoryError.valueError ("Unsupported platform: " ++ platform))) ∧
    (∀ (repo_path list_id : Option String) (derived_repo : Except String String)
        (a : Adapter),
        create_adapter "github" repo_path list_id derived_repo = Except.ok a →
        a.get_platform_name = "github") ∧
    (∀ (repo_path list_id : Option String) (derived_repo : Except String String)
        (a : Adapter),
        create_adapter "clickup" repo_path list_id derived_repo = Except.ok a →
        a.get_platform_name = "clickup") ∧
    (∀ (list_id : Option String) (derived_repo : Except String String),
        create_adapter "clickup" none list_id derived_repo =
          Except.ok (Adapter.clickup list_id)) ∧
    (∀ (rp : String) (list_id : Option String) (derived_repo : Except String String),
        rp ≠ "" →
        create_adapter "github" (some rp) list_id derived_repo =
          Except.ok (Adapter.github rp)) := by
  refine ⟨?_, ?_, ?_, ?_, ?_⟩
  · intro platform rp li d h1 h2
    simp [create_adapter, h1, h2]
  · intro rp li d a h
    simp only [create_adapter, reduceIte] at h
    split at h
    · cases h; rfl
    · split at h
      · cases h; rfl
      · cases h
  · intro rp li d a h
    simp only [create_adapter] at h
    norm_num at h
    cases h; rfl
  · intro li d
    simp [create_adapter]
  · intro rp li d h
    simp [create_adapter, truthy, pyStrOr, h]

/-- Witness for C10: `"jira"` is rejected with `ValueError`, while
`"clickup"` builds the ClickUp adapter with its list id. -/
theorem create_adapter_factory_witness :
    create_adapter "jira" none none (Except.ok "o/r") =
      Except.error (FactoryError.valueError ("Unsupported platform: " ++ "jira")) ∧
    create_adapter "clickup" none (some "L1") (Except.ok "o/r") =
      Except.ok (Adapter.clickup (some "L1")) :=
  ⟨create_adapter_factory.1 "jira" none none (Except.ok "o/r") (by decide) (by decide),
    create_adapter_factory.2.2.2.1 (some "L1") (Except.ok "o/r")⟩

end ClickUpAutomation
